import Mathlib

/-!
Shallow embedding of `pkg/templates/smoketest.go` from the
monitor-project-lifecycle repository, together with theorems settling the
frozen claims about it.

The cluster API client (OpenShift/Kubernetes clientsets), the Go `watch`
channel, the `time` package and `encoding/json` are external collaborators:
they are modelled at their boundary by explicit environment records (oracles
for each API call, an explicit schedule of watch-channel deliveries carrying
abstract clock values, and an oracle for JSON decoding).  Everything the
repository itself computes — the condition scan, the error classification,
the validation logic, the defer-based cleanup of `Run` — is translated
directly from the source.
-/

namespace MonitorTemplates

/-- Error taxonomy of `smoketest.go` (the package-level `errors.New` values).
Constructor names follow the Go variable names `ErrCreateTemplate`,
`ErrCreateInstance`, `ErrLaunchInstanceFailed`, `ErrLaunchInstanceTimeout`,
`ErrInstanceInvalid`, `ErrUnknown`, `ErrInitTest`; the message strings are
"CreateTemplateFailed", "CreateTemplateInstanceFailed",
"LaunchTemplateInstanceFailed", "LaunchTemplateInstanceTimeout",
"ValidateTemplateInstanceFailed", "Unknown", "InitTestFailed". -/
inductive SmokeErr where
  | InitTest
  | CreateTemplate
  | CreateInstance
  | LaunchInstanceFailed
  | LaunchInstanceTimeout
  | InstanceInvalid
  | Unknown
  deriving DecidableEq, Repr

/-- A status condition on a `TemplateInstance`: `cond.Type` and `cond.Status`
from `templatev1.TemplateInstanceCondition`.  The type constants are the
strings "Ready" (`templatev1.TemplateInstanceReady`) and "InstantiateFailure"
(`templatev1.TemplateInstanceInstantiateFailure`); the status constants are
"True", "False", "Unknown" (`corev1.ConditionTrue` etc.). -/
structure Condition where
  condType : String
  status : String
  deriving DecidableEq, Repr

/-- The two embedded raw manifests of the diagnostic template
(`configMapJSON` and `jobJSON` in the source), kept opaque: no claim
inspects their bytes. -/
inductive Manifest where
  | configMapJSON
  | jobJSON
  deriving DecidableEq, Repr

/-- A declared template parameter (`templatev1.Parameter`). -/
structure Parameter where
  name : String
  description : String
  displayName : String
  deriving DecidableEq, Repr

/-- The diagnostic `templatev1.Template`.  Two distinct label fields exist
on the Go struct: `labels` is the promoted `ObjectMeta.Labels` metadata map
(read by `validateTemplateInstance` at line 372 as `template.Labels`), while
`objectLabels` is the `ObjectLabels` field that `createTemplateCheck`
populates (the labels the template controller applies to instantiated
objects).  Go maps are modelled as association lists compared extensionally
(see `mapEqual`). -/
structure Template where
  name : String
  labels : List (String × String)
  objects : List Manifest
  objectLabels : List (String × String)
  parameters : List Parameter
  deriving DecidableEq, Repr

/-- A `templatev1.TemplateInstance`: its name, labels, the embedded template
snapshot, the referenced secret name and its status conditions. -/
structure TemplateInstance where
  name : String
  labels : List (String × String)
  templateSnapshot : Option Template
  secretName : Option String
  conditions : List Condition
  deriving DecidableEq, Repr

/-- A `corev1.Secret`: name plus data map (byte values kept as strings,
since the Go code only ever round-trips `[]byte(v)`). -/
structure Secret where
  name : String
  data : List (String × String)
  deriving DecidableEq, Repr

/-- A `corev1.ConfigMap`: name plus data map. -/
structure ConfigMap where
  name : String
  data : List (String × String)
  deriving DecidableEq, Repr

/-- A container of the job's pod template; only `Args` is read by the code. -/
structure Container where
  args : List String
  deriving DecidableEq, Repr

/-- A `batchv1.Job`; the code reads `job.Spec.Template.Spec.Containers`. -/
structure Job where
  name : String
  containers : List Container
  deriving DecidableEq, Repr

/-- Go map lookup with the zero value: `params["K"]` yields `""` when the key
is absent. -/
def lookupD (m : List (String × String)) (k : String) : String :=
  match m.lookup k with
  | some v => v
  | none => ""

/-- Extensional equality of Go string maps (`reflect.DeepEqual` on two
`map[string]string` values): the same keys are present and map to the same
values.  Modelled on association lists via `lookup` agreement in both
directions.  A nil Go map and an empty one are both rendered as `[]` (Go's
`DeepEqual` separates them, but no theorem here depends on that corner:
every comparison below pits a nil-or-empty map only against literals). -/
def mapEqual (a b : List (String × String)) : Bool :=
  a.all (fun kv => b.lookup kv.1 == some kv.2) &&
  b.all (fun kv => a.lookup kv.1 == some kv.2)

/-- Event tags of the Go `watch` package (`watch.EventType`). -/
inductive EventType where
  | Added
  | Modified
  | Deleted
  | Bookmark
  | Error
  deriving DecidableEq, Repr

/-- A delivery on the watch result channel: the event tag and the object
payload (always a `TemplateInstance` for this single-object watch). -/
structure WatchEvent where
  eventType : EventType
  object : TemplateInstance
  deriving DecidableEq, Repr

/-- One resolution of the `select` race in the watch loop: either the
`time.After` timer fires, or the next event is delivered.  `now` is the
abstract value of `time.Now()` at the moment the branch body runs. -/
inductive WatchStep where
  | timerFires (now : Nat)
  | eventArrives (now : Nat) (e : WatchEvent)
  deriving DecidableEq, Repr

/-- Terminal outcome of scanning one condition list. -/
inductive TerminalCond where
  | ready
  | instantiateFailure
  deriving DecidableEq, Repr

/-- The `for _, cond := range ti.Status.Conditions` loop body of
`launchTemplateInstanceCheck` (lines 340-360): each condition is checked for
Ready=True first, then InstantiateFailure=True, in list order; the first hit
returns. -/
def scanConditions : List Condition → Option TerminalCond
  | [] => none
  | c :: rest =>
    if c.condType == "Ready" && c.status == "True" then
      some TerminalCond.ready
    else if c.condType == "InstantiateFailure" && c.status == "True" then
      some TerminalCond.instantiateFailure
    else
      scanConditions rest

/-- What `launchTemplateInstanceCheck` returns once the watch loop resolves,
plus the bookkeeping needed by the temporal claims: `watcherStopped` records
whether `watcher.Stop()` was called on the path taken. -/
structure WatchOutcome where
  ti : TemplateInstance
  duration : Nat
  err : Option SmokeErr
  watcherStopped : Bool
  deriving DecidableEq, Repr

/-- The `for { select { ... } }` loop of `launchTemplateInstanceCheck`
(lines 329-368), over an explicit schedule of race resolutions.
`validate` is the continuation `t.validateTemplateInstance(ti, template,
params)` invoked in the Ready branch: its inner `Option SmokeErr` is the
branch's return error, while its outer `none` (validation panicking) makes
the whole loop fail to return.  `launchStart` is the abstract clock value
captured at line 303.  A `none` result means the call never returns: the
schedule was exhausted with the loop still blocked, or validation
panicked. -/
def watchLoop (validate : TemplateInstance → Option (Option SmokeErr))
    (launchStart : Nat) (ti : TemplateInstance) :
    List WatchStep → Option WatchOutcome
  | [] => none
  | WatchStep.timerFires now :: _ =>
    -- timeout branch, lines 331-333: duration is recomputed, the function
    -- returns ErrLaunchInstanceTimeout; watcher.Stop() is NOT called here.
    some ⟨ti, now - launchStart, some SmokeErr.LaunchInstanceTimeout, false⟩
  | WatchStep.eventArrives now e :: rest =>
    match e.eventType with
    | EventType.Modified =>
      -- lines 336-360: duration recorded first, snapshot replaced, then the
      -- condition list is scanned.
      let duration := now - launchStart
      let ti' := e.object
      match scanConditions ti'.conditions with
      | some TerminalCond.ready =>
        -- lines 343-349: watcher.Stop(), then validation; its result is
        -- returned with the duration recorded above.
        (validate ti').map (fun verr => ⟨ti', duration, verr, true⟩)
      | some TerminalCond.instantiateFailure =>
        some ⟨ti', duration, some SmokeErr.LaunchInstanceFailed, true⟩
      | none =>
        watchLoop validate launchStart ti' rest
    | _ =>
      -- default branch, lines 362-365: unexpected event tag; watcher.Stop()
      -- is not called on this path either.
      some ⟨ti, now - launchStart, some SmokeErr.Unknown, false⟩

/-- Dummy template parameters (`getDummyTemplateParams`). -/
def getDummyTemplateParams (id : String) : List (String × String) :=
  [("ID", id), ("SIMPLE_PARAM", "test"), ("JSON_PARAM", "[ \"echo\", \"Hello world\" ]")]

/-- Environment for `validateTemplateInstance`: the read-only cluster lookups
(`ConfigMaps(ns).Get`, `Jobs(ns).Get`, `none` = the API returned an error)
and the behaviour of `json.Unmarshal` into a `[]string` (`none` = decode
error), all external collaborators. -/
structure ValidateEnv where
  getConfigMap : String → Option ConfigMap
  getJob : String → Option Job
  jsonDecodeStringArray : String → Option (List String)

/-- Translation of `validateTemplateInstance` (lines 371-408).  The result is
`some (some e)` for a classified failure, `some none` for success, and `none`
for the runtime fault of `job.Spec.Template.Spec.Containers[0]` when the
container list is empty (a Go index-out-of-range panic: the function does not
return at all).  Note the label check at line 372 compares
`template.Labels` — the promoted `ObjectMeta.Labels`, which
`createTemplateCheck` never sets — against `instance.Labels`; it does not
consult the template's `ObjectLabels` field. -/
def validateTemplateInstance (env : ValidateEnv) (inst : TemplateInstance)
    (template : Template) (params : List (String × String)) :
    Option (Option SmokeErr) :=
  if !(mapEqual template.labels inst.labels) then
    some (some SmokeErr.InstanceInvalid)
  else
    let configMapName := "test-configmap-" ++ lookupD params "ID"
    match env.getConfigMap configMapName with
    | none => some (some SmokeErr.LaunchInstanceFailed)
    | some configMap =>
      let expectedData := [("foo", "bar"), ("simpleParam", lookupD params "SIMPLE_PARAM")]
      if !(mapEqual expectedData configMap.data) then
        some (some SmokeErr.InstanceInvalid)
      else
        match env.jsonDecodeStringArray (lookupD params "JSON_PARAM") with
        | none => some (some SmokeErr.Unknown)
        | some expectedArgs =>
          let jobName := "test-job-" ++ lookupD params "ID"
          match env.getJob jobName with
          | none => some (some SmokeErr.LaunchInstanceFailed)
          | some job =>
            match job.containers with
            | [] => none
            | c :: _ =>
              if expectedArgs == c.args then some none
              else some (some SmokeErr.InstanceInvalid)

/-- Oracles for the remaining cluster API calls and for the clock, all
external collaborators of `smoketest.go`.  For the two Go calls that return a
`(pointer, error)` pair where the code reads the pointer even on error
(`Secrets.Create`), the oracle answers with the full pair; for the calls
whose error path returns `nil` explicitly in the source, `none` stands for
"the call errored". -/
structure ClusterEnv where
  createTemplate : Template → Option Template
  getTemplate : String → Option Template
  createSecret : Secret → Option Secret × Bool
  createInstance : TemplateInstance → Option TemplateInstance
  watchOpenOk : Bool
  schedule : List WatchStep
  launchStart : Nat
  validateEnv : ValidateEnv

/-- The fixed diagnostic template built by `createTemplateCheck`
(lines 175-210): name `smoketest-template-<id>`, the two embedded manifests,
three object labels and three declared parameters. -/
def testTemplateFor (id : String) : Template :=
  { name := "smoketest-template-" ++ id
    -- the struct literal sets only ObjectMeta.Name; ObjectMeta.Labels stays nil
    labels := []
    objects := [Manifest.configMapJSON, Manifest.jobJSON]
    objectLabels := [("this", "that"), ("google", "kubernetes"), ("redhat", "openshift")]
    parameters :=
      [⟨"ID", "An identifier for all objects in the template instance.", "ID"⟩,
       ⟨"SIMPLE_PARAM", "A simple parameter for a template.", "Simple Parameter"⟩,
       ⟨"JSON_PARAM", "A JSON or YAML-formatted parameter.", "JSON Parameter"⟩] }

/-- Translation of `createTemplateCheck` (lines 172-218): submit the fixed
template; on client error return `ErrCreateTemplate` (first component mirrors
the returned pointer). -/
def createTemplateCheck (env : ClusterEnv) (ns id : String) :
    Option Template × Option SmokeErr :=
  match env.createTemplate (testTemplateFor id) with
  | none => (none, some SmokeErr.CreateTemplate)
  | some result => (some result, none)

/-- The four return values of `launchTemplateInstanceCheck`, plus the
`watcherStopped` bookkeeping (whether `watcher.Stop()` ran on the path
taken). -/
structure LaunchResult where
  ti : Option TemplateInstance
  secret : Option Secret
  duration : Nat
  err : Option SmokeErr
  watcherStopped : Bool
  deriving DecidableEq, Repr

/-- Translation of `launchTemplateInstanceCheck` (lines 276-369): re-fetch
the template by name (error → `ErrCreateTemplate`, nils returned); build and
create the parameter secret (error → `ErrCreateInstance`, the client's
returned reference still handed back); build and create the instance request
embedding the template by value and referencing the secret by name (error →
`ErrCreateInstance`); open the single-object watch (error → `ErrUnknown`,
returned immediately); then run the watch loop.  `none` means the function
never returns (the loop still blocked when the schedule ran out, or
validation panicked). -/
def launchTemplateInstanceCheck (env : ClusterEnv)
    (ns templateName id : String) (timeoutInterval : Nat) :
    Option LaunchResult :=
  let params := getDummyTemplateParams id
  match env.getTemplate templateName with
  | none => some ⟨none, none, 0, some SmokeErr.CreateTemplate, false⟩
  | some template =>
    let secret : Secret := ⟨templateName ++ "-secret", params⟩
    match env.createSecret secret with
    | (secretResult, true) =>
      some ⟨none, secretResult, 0, some SmokeErr.CreateInstance, false⟩
    | (secretResult, false) =>
      let instanceReq : TemplateInstance :=
        ⟨templateName ++ "-instance", [], some template, some secret.name, []⟩
      match env.createInstance instanceReq with
      | none => some ⟨none, secretResult, 0, some SmokeErr.CreateInstance, false⟩
      | some ti0 =>
        if !env.watchOpenOk then
          some ⟨some ti0, secretResult, 0, some SmokeErr.Unknown, false⟩
        else
          match watchLoop
              (fun ti' => validateTemplateInstance env.validateEnv ti' template params)
              env.launchStart ti0 env.schedule with
          | none => none
          | some out =>
            some ⟨some out.ti, secretResult, out.duration, out.err, out.watcherStopped⟩

/-- One deferred cleanup invocation of `Run`, with the reference it was
invoked on. -/
inductive CleanupCall where
  | delInstance (i : Option TemplateInstance)
  | delSecret (s : Option Secret)
  | delTemplate (t : Option Template)
  deriving DecidableEq, Repr

/-- The observable outcome of `Run`: the returned duration and error, and
the deferred cleanup calls in the order Go executes them (LIFO of
registration). -/
structure RunResult where
  duration : Nat
  err : Option SmokeErr
  cleanup : List CleanupCall
  deriving DecidableEq, Repr

/-- Translation of `Run` (lines 143-169).  `deleteTemplate` is deferred
right after `createTemplateCheck`, before its error check; `deleteSecret`
and `deleteTemplateInstance` are deferred right after
`launchTemplateInstanceCheck`, before its error check; each defer is guarded
by `!keepObjects`.  Go runs defers last-registered-first, so the executed
order is instance, secret, template.  `id` stands for the time-derived run
identifier.  `none` means `Run` itself never returns (launch blocked or
panicked; no defers fire in the blocked case, so no trace is produced). -/
def Run (env : ClusterEnv) (ns : String) (keepObjects : Bool) (id : String)
    (timeout : Nat) : Option RunResult :=
  match createTemplateCheck env ns id with
  | (template, some e) =>
    some ⟨0, some e, if keepObjects then [] else [CleanupCall.delTemplate template]⟩
  | (some template, none) =>
    match launchTemplateInstanceCheck env ns template.name id timeout with
    | none => none
    | some lr =>
      some ⟨lr.duration, lr.err,
        if keepObjects then []
        else [CleanupCall.delInstance lr.ti, CleanupCall.delSecret lr.secret,
              CleanupCall.delTemplate (some template)]⟩
  | (none, none) => none

/-- Names of the objects currently existing in the cluster, per kind: the
state the delete helpers act on. -/
structure ClusterState where
  secrets : List String
  templates : List String
  instances : List String
  deriving DecidableEq, Repr

/-- The API client's delete call at the §6 boundary: deleting an existing
object removes it and succeeds; deleting a missing object is answered by the
server with a NotFound error (the Boolean is Go's `err != nil`). -/
def apiDelete (names : List String) (name : String) : List String × Bool :=
  if names.contains name then (names.erase name, false) else (names, true)

/-- Translation of `deleteSecret` (lines 221-232): nil reference → return
nil immediately; otherwise issue the API delete and return its error. -/
def deleteSecret (st : ClusterState) (secret : Option Secret) :
    ClusterState × Bool :=
  match secret with
  | none => (st, false)
  | some s =>
    let r := apiDelete st.secrets s.name
    ({ st with secrets := r.1 }, r.2)

/-- Translation of `deleteTemplate` (lines 235-246): nil reference → return
nil immediately; otherwise issue the API delete and return its error. -/
def deleteTemplate (st : ClusterState) (template : Option Template) :
    ClusterState × Bool :=
  match template with
  | none => (st, false)
  | some t =>
    let r := apiDelete st.templates t.name
    ({ st with templates := r.1 }, r.2)

/-- Translation of `deleteTemplateInstance` (lines 250-264): nil reference →
return nil immediately; otherwise issue the API delete (foreground cascade;
children are not tracked here since no claim reads them) and return its
error. -/
def deleteTemplateInstance (st : ClusterState) (inst : Option TemplateInstance) :
    ClusterState × Bool :=
  match inst with
  | none => (st, false)
  | some i =>
    let r := apiDelete st.instances i.name
    ({ st with instances := r.1 }, r.2)

/-- Dispatch one deferred cleanup call to the helper it names. -/
def execCleanup (st : ClusterState) : CleanupCall → ClusterState × Bool
  | CleanupCall.delInstance i => deleteTemplateInstance st i
  | CleanupCall.delSecret s => deleteSecret st s
  | CleanupCall.delTemplate t => deleteTemplate st t

/-- Execute a cleanup trace in order, collecting each call's discarded error
value (Go's `defer` drops the helpers' return values). -/
def runCleanup : ClusterState → List CleanupCall → ClusterState × List Bool
  | st, [] => (st, [])
  | st, c :: rest =>
    let r := execCleanup st c
    let t := runCleanup r.1 rest
    (t.1, r.2 :: t.2)

/-- `Run` together with the execution of its deferred cleanups against a
cluster state: the run outcome component is computed exactly as in `Run`,
and the cleanup errors are collected only to be discarded, as Go's `defer`
discards the helpers' return values. -/
def runWithCleanup (env : ClusterEnv) (st : ClusterState) (ns : String)
    (keepObjects : Bool) (id : String) (timeout : Nat) :
    Option (RunResult × ClusterState × List Bool) :=
  (Run env ns keepObjects id timeout).map
    (fun r => (r, runCleanup st r.cleanup))

/-! ## Helper notions and lemmas -/

/-- A condition that terminates the scan of lines 340-360: Ready=True or
InstantiateFailure=True. -/
def isTerminalCond (c : Condition) : Bool :=
  (c.condType == "Ready" && c.status == "True") ||
  (c.condType == "InstantiateFailure" && c.status == "True")

/-- A watch step that leaves the loop in PENDING: a Modified event none of
whose conditions is terminal. -/
def nonTerminalStep : WatchStep → Bool
  | WatchStep.timerFires _ => false
  | WatchStep.eventArrives _ e =>
    e.eventType == EventType.Modified && (scanConditions e.object.conditions).isNone

/-- The in-memory snapshot after processing a list of steps whose events all
leave the loop pending: the object of the last event, if any. -/
def lastObj (ti : TemplateInstance) : List WatchStep → TemplateInstance
  | [] => ti
  | WatchStep.timerFires _ :: rest => lastObj ti rest
  | WatchStep.eventArrives _ e :: rest => lastObj e.object rest

theorem scanConditions_append_of_nonterminal (pre rest : List Condition)
    (h : ∀ d ∈ pre, isTerminalCond d = false) :
    scanConditions (pre ++ rest) = scanConditions rest := by
  induction pre with
  | nil => rfl
  | cons c cs ih =>
    have hc := h c (List.mem_cons_self _ _)
    simp only [isTerminalCond, Bool.or_eq_false_iff] at hc
    simp only [List.cons_append, scanConditions, hc.1, hc.2, if_false,
      Bool.false_eq_true]
    exact ih (fun d hd => h d (List.mem_cons_of_mem _ hd))

theorem watchLoop_skip_pending (v : TemplateInstance → Option (Option SmokeErr))
    (launchStart : Nat) (pre : List WatchStep)
    (h : ∀ s ∈ pre, nonTerminalStep s = true) (ti : TemplateInstance)
    (rest : List WatchStep) :
    watchLoop v launchStart ti (pre ++ rest) =
      watchLoop v launchStart (lastObj ti pre) rest := by
  induction pre generalizing ti with
  | nil => rfl
  | cons s ss ih =>
    cases s with
    | timerFires now =>
      have hs := h _ (List.mem_cons_self _ _)
      simp [nonTerminalStep] at hs
    | eventArrives now e =>
      have hs := h _ (List.mem_cons_self _ _)
      simp only [nonTerminalStep, Bool.and_eq_true, beq_iff_eq,
        Option.isNone_iff_eq_none] at hs
      obtain ⟨he, hscan⟩ := hs
      simp only [List.cons_append, watchLoop, he, hscan, lastObj]
      exact ih (fun d hd => h d (List.mem_cons_of_mem _ hd)) e.object

/-! ## C1 -/

/-- Initial instance snapshot used by concrete scenarios: a freshly created
instance with no conditions. -/
def tiInit : TemplateInstance := ⟨"smoketest-template-1-instance", [], none, none, []⟩

/-- An instance snapshot whose condition list carries InstantiateFailure=True
before Ready=True. -/
def tiFailureFirst : TemplateInstance :=
  ⟨"smoketest-template-1-instance", [], none, none,
   [⟨"InstantiateFailure", "True"⟩, ⟨"Ready", "True"⟩]⟩

/-- C1 counterexample: a Modified event carrying both InstantiateFailure=True
and Ready=True, in that order, resolves the loop to the failure outcome
(`ErrLaunchInstanceFailed`, no validation) rather than to READY — condition
order decides, so Ready does not take precedence regardless of order. -/
theorem ready_not_precedent_when_failure_first :
    watchLoop (fun _ => some none) 0 tiInit
      [WatchStep.eventArrives 5 ⟨EventType.Modified, tiFailureFirst⟩] =
      some ⟨tiFailureFirst, 5, some SmokeErr.LaunchInstanceFailed, true⟩ := rfl

/-- C1 (amended): on a Modified event, the watcher resolves READY — invoking
validation and returning its result with the watcher stopped — exactly when a
Ready=True condition precedes every terminal condition in the list; when an
InstantiateFailure=True condition comes first instead, it resolves to the
failure outcome without validation. -/
theorem ready_resolution_requires_ready_first :
    (∀ (v : TemplateInstance → Option (Option SmokeErr)) (launchStart now : Nat)
       (ti : TemplateInstance) (e : WatchEvent) (rest : List WatchStep)
       (pre post : List Condition) (c : Condition),
       e.eventType = EventType.Modified →
       e.object.conditions = pre ++ c :: post →
       c.condType = "Ready" → c.status = "True" →
       (∀ d ∈ pre, isTerminalCond d = false) →
       watchLoop v launchStart ti (WatchStep.eventArrives now e :: rest) =
         (v e.object).map (fun verr => ⟨e.object, now - launchStart, verr, true⟩)) ∧
    (∀ (v : TemplateInstance → Option (Option SmokeErr)) (launchStart now : Nat)
       (ti : TemplateInstance) (e : WatchEvent) (rest : List WatchStep)
       (pre post : List Condition) (c : Condition),
       e.eventType = EventType.Modified →
       e.object.conditions = pre ++ c :: post →
       c.condType = "InstantiateFailure" → c.status = "True" →
       (∀ d ∈ pre, isTerminalCond d = false) →
       watchLoop v launchStart ti (WatchStep.eventArrives now e :: rest) =
         some ⟨e.object, now - launchStart, some SmokeErr.LaunchInstanceFailed, true⟩) := by
  constructor
  · intro v launchStart now ti e rest pre post c he hconds hty hst hpre
    have hscan : scanConditions e.object.conditions = some TerminalCond.ready := by
      rw [hconds, scanConditions_append_of_nonterminal pre _ hpre]
      simp [scanConditions, hty, hst]
    simp [watchLoop, he, hscan]
  · intro v launchStart now ti e rest pre post c he hconds hty hst hpre
    have hscan : scanConditions e.object.conditions =
        some TerminalCond.instantiateFailure := by
      rw [hconds, scanConditions_append_of_nonterminal pre _ hpre]
      simp [scanConditions, hty, hst]
    simp [watchLoop, he, hscan]

/-- C1 amended-claim witness: both directions at concrete inputs — a
Ready-first list resolves READY with validation's answer, a failure-first
list resolves to the failure outcome. -/
theorem ready_resolution_requires_ready_first_witness :
    watchLoop (fun _ => some (some SmokeErr.InstanceInvalid)) 2 tiInit
      [WatchStep.eventArrives 9
        ⟨EventType.Modified,
         ⟨"i", [], none, none, [⟨"Other", "True"⟩, ⟨"Ready", "True"⟩]⟩⟩] =
      some ⟨⟨"i", [], none, none, [⟨"Other", "True"⟩, ⟨"Ready", "True"⟩]⟩, 7,
        some SmokeErr.InstanceInvalid, true⟩ ∧
    watchLoop (fun _ => some none) 2 tiInit
      [WatchStep.eventArrives 9 ⟨EventType.Modified, tiFailureFirst⟩] =
      some ⟨tiFailureFirst, 7, some SmokeErr.LaunchInstanceFailed, true⟩ := by
  constructor
  · exact ready_resolution_requires_ready_first.1
      (fun _ => some (some SmokeErr.InstanceInvalid)) 2 9 tiInit
      ⟨EventType.Modified,
       ⟨"i", [], none, none, [⟨"Other", "True"⟩, ⟨"Ready", "True"⟩]⟩⟩ []
      [⟨"Other", "True"⟩] [] ⟨"Ready", "True"⟩ rfl rfl rfl rfl (by decide)
  · exact ready_resolution_requires_ready_first.2
      (fun _ => some none) 2 9 tiInit
      ⟨EventType.Modified, tiFailureFirst⟩ []
      [] [⟨"Ready", "True"⟩] ⟨"InstantiateFailure", "True"⟩ rfl rfl rfl rfl
      (by decide)

/-! ## C3 -/

/-- C3: when the timer fires first, the loop returns the TIMED_OUT outcome
with `watcherStopped = false` — the code's timeout branch (lines 331-333)
returns without calling `watcher.Stop()`, so the subscription is left open,
contrary to the claim. -/
theorem timeout_returns_without_stopping_watcher :
    watchLoop (fun _ => some none) 0 tiInit [WatchStep.timerFires 7] =
      some ⟨tiInit, 7, some SmokeErr.LaunchInstanceTimeout, false⟩ := rfl

/-! ## C4 -/

/-- C4: if every delivery before the timer consists of Modified events with
no terminal condition, the loop returns exactly the
`ErrLaunchInstanceTimeout` classification (no other error value) and the
elapsed time `t - launchStart` measured from launch start to the moment the
timer fired. -/
theorem timeout_classifies_launch_timeout
    (v : TemplateInstance → Option (Option SmokeErr)) (launchStart : Nat)
    (ti : TemplateInstance) (pre rest : List WatchStep) (t : Nat)
    (h : ∀ s ∈ pre, nonTerminalStep s = true) :
    watchLoop v launchStart ti (pre ++ WatchStep.timerFires t :: rest) =
      some ⟨lastObj ti pre, t - launchStart,
        some SmokeErr.LaunchInstanceTimeout, false⟩ := by
  rw [watchLoop_skip_pending v launchStart pre h ti]
  rfl

/-- C4 witness: a single pending Modified event followed by timer expiry at
tick 11 with launch start 1 yields the timeout error and elapsed time 10. -/
theorem timeout_classifies_launch_timeout_witness :
    watchLoop (fun _ => some none) 1 tiInit
      [WatchStep.eventArrives 4 ⟨EventType.Modified, ⟨"i", [], none, none, [⟨"Other", "False"⟩]⟩⟩,
       WatchStep.timerFires 11] =
      some ⟨⟨"i", [], none, none, [⟨"Other", "False"⟩]⟩, 10,
        some SmokeErr.LaunchInstanceTimeout, false⟩ :=
  timeout_classifies_launch_timeout (fun _ => some none) 1 tiInit
    [WatchStep.eventArrives 4 ⟨EventType.Modified, ⟨"i", [], none, none, [⟨"Other", "False"⟩]⟩⟩]
    [] 11 (by decide)

/-! ## C5 -/

/-- Concrete fixture template for validator scenarios. -/
def tmplW : Template := testTemplateFor "12345"

/-- Concrete fixture instance: like a real TemplateInstance, its metadata
carries no labels. -/
def instW : TemplateInstance :=
  ⟨"smoketest-template-12345-instance", [], none, none, [⟨"Ready", "True"⟩]⟩

/-- Concrete fixture instance whose metadata labels are exactly the
template's declared ObjectLabels set. -/
def instLabelled : TemplateInstance :=
  ⟨"smoketest-template-12345-instance",
   [("this", "that"), ("google", "kubernetes"), ("redhat", "openshift")],
   none, none, [⟨"Ready", "True"⟩]⟩

/-- Concrete validator environment: matching config map and job exist, and
the dummy JSON_PARAM decodes to the two-element sequence. -/
def venvW : ValidateEnv :=
  { getConfigMap := fun n =>
      if n == "test-configmap-12345" then
        some ⟨"test-configmap-12345", [("foo", "bar"), ("simpleParam", "test")]⟩
      else none
    getJob := fun n =>
      if n == "test-job-12345" then
        some ⟨"test-job-12345", [⟨["echo", "Hello world"]⟩]⟩
      else none
    jsonDecodeStringArray := fun s =>
      if s == "[ \"echo\", \"Hello world\" ]" then
        some ["echo", "Hello world"]
      else none }

/-- C5: the label check of `validateTemplateInstance` (line 372) compares
the instance's labels with `template.Labels`, the promoted ObjectMeta
labels that `createTemplateCheck` never sets — not with the template's
declared label set `ObjectLabels` that the claim refers to.  With the
matching config map and job present, an instance carrying exactly the
declared label set is rejected as `ErrInstanceInvalid`, while an instance
carrying no labels at all — hence not the declared set — passes
validation, so validation does not return ok exactly when the instance's
label set equals the template's label set. -/
theorem label_check_compares_unset_template_labels :
    validateTemplateInstance venvW instLabelled tmplW
      (getDummyTemplateParams "12345") =
      some (some SmokeErr.InstanceInvalid) ∧
    validateTemplateInstance venvW instW tmplW
      (getDummyTemplateParams "12345") = some none :=
  ⟨rfl, rfl⟩
/-! ## C10 -/

/-- C10: validation reads the fetched job's first container unconditionally;
when every earlier check passes but the job's container list is empty,
`validateTemplateInstance` does not return any classified error — it faults
(the `none` outcome, a Go index-out-of-range panic). -/
theorem validate_faults_on_empty_containers (venv : ValidateEnv)
    (inst : TemplateInstance) (tmpl : Template)
    (params : List (String × String)) (cm : ConfigMap) (args : List String)
    (job : Job)
    (hl : mapEqual tmpl.labels inst.labels = true)
    (hcm : venv.getConfigMap ("test-configmap-" ++ lookupD params "ID") = some cm)
    (hdata : mapEqual [("foo", "bar"), ("simpleParam", lookupD params "SIMPLE_PARAM")]
      cm.data = true)
    (hdec : venv.jsonDecodeStringArray (lookupD params "JSON_PARAM") = some args)
    (hjob : venv.getJob ("test-job-" ++ lookupD params "ID") = some job)
    (hempty : job.containers = []) :
    validateTemplateInstance venv inst tmpl params = none := by
  unfold validateTemplateInstance
  simp [hl, hcm, hdata, hdec, hjob, hempty]

/-- Concrete validator environment whose job has an empty container list. -/
def venvNoContainers : ValidateEnv :=
  { getConfigMap := fun n =>
      if n == "test-configmap-12345" then
        some ⟨"test-configmap-12345", [("foo", "bar"), ("simpleParam", "test")]⟩
      else none
    getJob := fun n =>
      if n == "test-job-12345" then some ⟨"test-job-12345", []⟩ else none
    jsonDecodeStringArray := fun s =>
      if s == "[ \"echo\", \"Hello world\" ]" then
        some ["echo", "Hello world"]
      else none }

/-- C10 witness: the concrete empty-container job makes validation fault. -/
theorem validate_faults_on_empty_containers_witness :
    validateTemplateInstance venvNoContainers instW tmplW
      (getDummyTemplateParams "12345") = none :=
  validate_faults_on_empty_containers venvNoContainers instW tmplW
    (getDummyTemplateParams "12345")
    ⟨"test-configmap-12345", [("foo", "bar"), ("simpleParam", "test")]⟩
    ["echo", "Hello world"] ⟨"test-job-12345", []⟩
    (by decide) (by decide) (by decide) (by decide) (by decide) rfl

/-! ## C6 -/

/-- C6: during launch, a failed template re-fetch is classified
`ErrCreateTemplate` (with nil references); a failed secret create is
classified `ErrCreateInstance` with the client's (possibly partially
created) secret reference still returned; a failed instance create is
classified `ErrCreateInstance` with the created secret reference
returned. -/
theorem launch_phase_error_classification :
    (∀ (env : ClusterEnv) (ns templateName id : String) (tI : Nat),
       env.getTemplate templateName = none →
       launchTemplateInstanceCheck env ns templateName id tI =
         some ⟨none, none, 0, some SmokeErr.CreateTemplate, false⟩) ∧
    (∀ (env : ClusterEnv) (ns templateName id : String) (tI : Nat)
       (template : Template) (secretResult : Option Secret),
       env.getTemplate templateName = some template →
       env.createSecret ⟨templateName ++ "-secret", getDummyTemplateParams id⟩ =
         (secretResult, true) →
       launchTemplateInstanceCheck env ns templateName id tI =
         some ⟨none, secretResult, 0, some SmokeErr.CreateInstance, false⟩) ∧
    (∀ (env : ClusterEnv) (ns templateName id : String) (tI : Nat)
       (template : Template) (secretResult : Option Secret),
       env.getTemplate templateName = some template →
       env.createSecret ⟨templateName ++ "-secret", getDummyTemplateParams id⟩ =
         (secretResult, false) →
       env.createInstance ⟨templateName ++ "-instance", [], some template,
         some (templateName ++ "-secret"), []⟩ = none →
       launchTemplateInstanceCheck env ns templateName id tI =
         some ⟨none, secretResult, 0, some SmokeErr.CreateInstance, false⟩) := by
  refine ⟨?_, ?_, ?_⟩
  · intro env ns templateName id tI hget
    unfold launchTemplateInstanceCheck
    simp [hget]
  · intro env ns templateName id tI template secretResult hget hsec
    unfold launchTemplateInstanceCheck
    simp [hget, hsec]
  · intro env ns templateName id tI template secretResult hget hsec hinst
    unfold launchTemplateInstanceCheck
    simp [hget, hsec, hinst]

/-- Environment whose template re-fetch fails. -/
def envGetFails : ClusterEnv :=
  { createTemplate := fun t => some t
    getTemplate := fun _ => none
    createSecret := fun s => (some s, false)
    createInstance := fun i => some i
    watchOpenOk := true
    schedule := []
    launchStart := 0
    validateEnv := venvW }

/-- Environment whose secret create fails, answering with a partial secret
reference. -/
def envSecretFails : ClusterEnv :=
  { envGetFails with
    getTemplate := fun _ => some (testTemplateFor "1")
    createSecret := fun s => (some ⟨s.name, []⟩, true) }

/-- Environment whose instance create fails after the secret was created. -/
def envInstanceFails : ClusterEnv :=
  { envGetFails with
    getTemplate := fun _ => some (testTemplateFor "1")
    createInstance := fun _ => none }

/-- C6 witness: the three classifications at concrete environments. -/
theorem launch_phase_error_classification_witness :
    launchTemplateInstanceCheck envGetFails "ns" "tmpl" "1" 30 =
      some ⟨none, none, 0, some SmokeErr.CreateTemplate, false⟩ ∧
    launchTemplateInstanceCheck envSecretFails "ns" "tmpl" "1" 30 =
      some ⟨none, some ⟨"tmpl-secret", []⟩, 0, some SmokeErr.CreateInstance, false⟩ ∧
    launchTemplateInstanceCheck envInstanceFails "ns" "tmpl" "1" 30 =
      some ⟨none, some ⟨"tmpl-secret", getDummyTemplateParams "1"⟩, 0,
        some SmokeErr.CreateInstance, false⟩ :=
  ⟨launch_phase_error_classification.1 envGetFails "ns" "tmpl" "1" 30 rfl,
   launch_phase_error_classification.2.1 envSecretFails "ns" "tmpl" "1" 30
     (testTemplateFor "1") (some ⟨"tmpl-secret", []⟩) rfl rfl,
   launch_phase_error_classification.2.2 envInstanceFails "ns" "tmpl" "1" 30
     (testTemplateFor "1") (some ⟨"tmpl-secret", getDummyTemplateParams "1"⟩)
     rfl rfl rfl⟩

/-! ## C7 -/

/-- C7: engine-internal faults are classified `ErrUnknown`: a failed
subscription open returns immediately (same outcome for every schedule, so
the watch loop is never entered and never retried); an event with any tag
other than Modified resolves the loop to `ErrUnknown`; a JSON decode failure
during validation returns `ErrUnknown` rather than a validation failure. -/
theorem engine_faults_classified_unknown :
    (∀ (env : ClusterEnv) (ns templateName id : String) (tI : Nat)
       (template : Template) (secretResult : Option Secret)
       (ti0 : TemplateInstance) (sched : List WatchStep),
       env.getTemplate templateName = some template →
       env.createSecret ⟨templateName ++ "-secret", getDummyTemplateParams id⟩ =
         (secretResult, false) →
       env.createInstance ⟨templateName ++ "-instance", [], some template,
         some (templateName ++ "-secret"), []⟩ = some ti0 →
       env.watchOpenOk = false →
       launchTemplateInstanceCheck env ns templateName id tI =
         some ⟨some ti0, secretResult, 0, some SmokeErr.Unknown, false⟩ ∧
       launchTemplateInstanceCheck { env with schedule := sched } ns templateName id tI =
         some ⟨some ti0, secretResult, 0, some SmokeErr.Unknown, false⟩) ∧
    (∀ (v : TemplateInstance → Option (Option SmokeErr)) (launchStart : Nat)
       (ti : TemplateInstance) (pre rest : List WatchStep) (now : Nat)
       (e : WatchEvent),
       (∀ s ∈ pre, nonTerminalStep s = true) →
       e.eventType ≠ EventType.Modified →
       watchLoop v launchStart ti (pre ++ WatchStep.eventArrives now e :: rest) =
         some ⟨lastObj ti pre, now - launchStart, some SmokeErr.Unknown, false⟩) ∧
    (∀ (venv : ValidateEnv) (inst : TemplateInstance) (tmpl : Template)
       (params : List (String × String)) (cm : ConfigMap),
       mapEqual tmpl.labels inst.labels = true →
       venv.getConfigMap ("test-configmap-" ++ lookupD params "ID") = some cm →
       mapEqual [("foo", "bar"), ("simpleParam", lookupD params "SIMPLE_PARAM")]
         cm.data = true →
       venv.jsonDecodeStringArray (lookupD params "JSON_PARAM") = none →
       validateTemplateInstance venv inst tmpl params =
         some (some SmokeErr.Unknown)) := by
  refine ⟨?_, ?_, ?_⟩
  · intro env ns templateName id tI template secretResult ti0 sched hget hsec
      hinst hwatch
    constructor
    · unfold launchTemplateInstanceCheck
      simp [hget, hsec, hinst, hwatch]
    · unfold launchTemplateInstanceCheck
      simp [hget, hsec, hinst, hwatch]
  · intro v launchStart ti pre rest now e hpre he
    rw [watchLoop_skip_pending v launchStart pre hpre ti]
    cases hE : e.eventType with
    | Modified => exact absurd hE he
    | Added => simp [watchLoop, hE]
    | Deleted => simp [watchLoop, hE]
    | Bookmark => simp [watchLoop, hE]
    | Error => simp [watchLoop, hE]
  · intro venv inst tmpl params cm hl hcm hdata hdec
    unfold validateTemplateInstance
    simp [hl, hcm, hdata, hdec]

/-- Environment where every create succeeds but opening the watch fails. -/
def envWatchFails : ClusterEnv :=
  { envGetFails with
    getTemplate := fun _ => some (testTemplateFor "1")
    watchOpenOk := false }

/-- Concrete validator environment whose JSON decode oracle always fails. -/
def venvDecodeFails : ValidateEnv :=
  { venvW with jsonDecodeStringArray := fun _ => none }

/-- C7 witness: the three `ErrUnknown` classifications at concrete inputs. -/
theorem engine_faults_classified_unknown_witness :
    launchTemplateInstanceCheck envWatchFails "ns" "tmpl" "1" 30 =
      some ⟨some ⟨"tmpl-instance", [], some (testTemplateFor "1"),
        some "tmpl-secret", []⟩, some ⟨"tmpl-secret", getDummyTemplateParams "1"⟩,
        0, some SmokeErr.Unknown, false⟩ ∧
    watchLoop (fun _ => some none) 2 tiInit
      [WatchStep.eventArrives 9 ⟨EventType.Deleted, tiInit⟩] =
      some ⟨tiInit, 7, some SmokeErr.Unknown, false⟩ ∧
    validateTemplateInstance venvDecodeFails instW tmplW
      (getDummyTemplateParams "12345") = some (some SmokeErr.Unknown) :=
  ⟨(engine_faults_classified_unknown.1 envWatchFails "ns" "tmpl" "1" 30
      (testTemplateFor "1") (some ⟨"tmpl-secret", getDummyTemplateParams "1"⟩)
      ⟨"tmpl-instance", [], some (testTemplateFor "1"), some "tmpl-secret", []⟩
      [] rfl rfl rfl rfl).1,
   engine_faults_classified_unknown.2.1 (fun _ => some none) 2 tiInit []
     [] 9 ⟨EventType.Deleted, tiInit⟩ (by decide) (by decide),
   engine_faults_classified_unknown.2.2 venvDecodeFails instW tmplW
     (getDummyTemplateParams "12345")
     ⟨"test-configmap-12345", [("foo", "bar"), ("simpleParam", "test")]⟩
     (by decide) (by decide) (by decide) rfl⟩

/-! ## C8 -/

/-- C8: on the Ready resolution, the returned duration is the elapsed time
`now - launchStart` recorded when the Modified event carrying Ready=True is
processed — the outcome is `(v e.object).map ...` with that fixed duration,
for every validation continuation `v`, so validation cannot increase it —
and `Run` passes the launch-phase duration and the launch phase's error
through unchanged. -/
theorem duration_fixed_at_ready_event :
    (∀ (v : TemplateInstance → Option (Option SmokeErr)) (launchStart : Nat)
       (ti : TemplateInstance) (pre rest : List WatchStep) (now : Nat)
       (e : WatchEvent),
       (∀ s ∈ pre, nonTerminalStep s = true) →
       e.eventType = EventType.Modified →
       scanConditions e.object.conditions = some TerminalCond.ready →
       watchLoop v launchStart ti (pre ++ WatchStep.eventArrives now e :: rest) =
         (v e.object).map (fun verr => ⟨e.object, now - launchStart, verr, true⟩)) ∧
    (∀ (env : ClusterEnv) (ns : String) (keep : Bool) (id : String) (tI : Nat)
       (template : Template) (lr : LaunchResult),
       createTemplateCheck env ns id = (some template, none) →
       launchTemplateInstanceCheck env ns template.name id tI = some lr →
       (Run env ns keep id tI).map (fun r => (r.duration, r.err)) =
         some (lr.duration, lr.err)) := by
  constructor
  · intro v launchStart ti pre rest now e hpre he hscan
    rw [watchLoop_skip_pending v launchStart pre hpre ti]
    simp [watchLoop, he, hscan]
  · intro env ns keep id tI template lr hc hl
    unfold Run
    rw [hc]
    simp [hl]

/-- Environment in which a single Modified event with Ready=True arrives at
tick 9 (launch start tick 2) and every validated resource matches. -/
def envReadyAt9 : ClusterEnv :=
  { createTemplate := fun t => some t
    getTemplate := fun _ => some (testTemplateFor "12345")
    createSecret := fun s => (some s, false)
    createInstance := fun i => some i
    watchOpenOk := true
    schedule := [WatchStep.eventArrives 9 ⟨EventType.Modified, instW⟩]
    launchStart := 2
    validateEnv := venvW }

/-- C8 witness: the Ready event at tick 9 with launch start 2 fixes the
duration at 7 however validation behaves, and `Run` reports exactly the
launch result's duration and error. -/
theorem duration_fixed_at_ready_event_witness :
    watchLoop (fun _ => some (some SmokeErr.InstanceInvalid)) 2 tiInit
      [WatchStep.eventArrives 9 ⟨EventType.Modified, instW⟩] =
      some ⟨instW, 7, some SmokeErr.InstanceInvalid, true⟩ ∧
    (Run envReadyAt9 "ns" false "12345" 30).map (fun r => (r.duration, r.err)) =
      some (7, none) :=
  ⟨duration_fixed_at_ready_event.1 (fun _ => some (some SmokeErr.InstanceInvalid))
     2 tiInit [] [] 9 ⟨EventType.Modified, instW⟩ (by decide) rfl (by decide),
   duration_fixed_at_ready_event.2 envReadyAt9 "ns" false "12345" 30
     (testTemplateFor "12345") ⟨some instW,
       some ⟨"smoketest-template-12345-secret", getDummyTemplateParams "12345"⟩,
       7, none, true⟩ rfl (by decide)⟩

/-! ## C2 -/

/-- C2: on every returning path of a keepArtifacts=false run, the deferred
cleanup trace is either the single template deletion (template-creation
failure path) or exactly the three deletions in reverse creation order —
instance, then secret, then template — invoked once each on the references
the phases produced (the secret reference even when launch failed before the
instance existed); and executing the cleanups against any cluster state
never changes the run's returned result. -/
theorem cleanup_once_reverse_order_and_error_independent :
    (∀ (env : ClusterEnv) (ns id : String) (tI : Nat) (r : RunResult),
       Run env ns false id tI = some r →
       (∃ t, createTemplateCheck env ns id = (t, some SmokeErr.CreateTemplate) ∧
          r.cleanup = [CleanupCall.delTemplate t]) ∨
       (∃ template lr,
          createTemplateCheck env ns id = (some template, none) ∧
          launchTemplateInstanceCheck env ns template.name id tI = some lr ∧
          r.cleanup = [CleanupCall.delInstance lr.ti, CleanupCall.delSecret lr.secret,
            CleanupCall.delTemplate (some template)])) ∧
    (∀ (env : ClusterEnv) (st₁ st₂ : ClusterState) (ns : String) (keep : Bool)
       (id : String) (tI : Nat),
       (runWithCleanup env st₁ ns keep id tI).map (fun x => x.1) =
       (runWithCleanup env st₂ ns keep id tI).map (fun x => x.1)) := by
  constructor
  · intro env ns id tI r hr
    unfold Run at hr
    cases hc : createTemplateCheck env ns id with
    | mk tref terr =>
      rw [hc] at hr
      cases terr with
      | some e =>
        left
        have he : e = SmokeErr.CreateTemplate := by
          unfold createTemplateCheck at hc
          cases h : env.createTemplate (testTemplateFor id) with
          | none =>
            rw [h] at hc
            injection hc with h1 h2
            injection h2 with h3
            exact h3.symm
          | some t =>
            rw [h] at hc
            injection hc with h1 h2
            exact absurd h2 (by simp)
        subst he
        simp only [Option.some.injEq] at hr
        refine ⟨tref, rfl, ?_⟩
        rw [← hr]
        simp
      | none =>
        cases tref with
        | none => simp at hr
        | some template =>
          right
          cases hl : launchTemplateInstanceCheck env ns template.name id tI with
          | none => simp [hl] at hr
          | some lr =>
            simp only [hl, Option.some.injEq] at hr
            refine ⟨template, lr, rfl, hl, ?_⟩
            rw [← hr]
            simp
  · intro env st₁ st₂ ns keep id tI
    cases h : Run env ns keep id tI with
    | none => simp [runWithCleanup, h]
    | some r => simp [runWithCleanup, h]

/-- The run result of the launch-fails-after-secret scenario: the secret was
created, the instance was not, and all three cleanups still fire in reverse
creation order with the secret reference present. -/
def rSecretOnly : RunResult :=
  ⟨0, some SmokeErr.CreateInstance,
   [CleanupCall.delInstance none,
    CleanupCall.delSecret (some ⟨"smoketest-template-1-secret",
      getDummyTemplateParams "1"⟩),
    CleanupCall.delTemplate (some (testTemplateFor "1"))]⟩

/-- C2 witness: in the concrete scenario where instance creation fails after
the secret exists, the trace disjunct holds, and executing the cleanups
against two different cluster states leaves the run result unchanged. -/
theorem cleanup_once_reverse_order_and_error_independent_witness :
    ((∃ t, createTemplateCheck envInstanceFails "ns" "1" =
        (t, some SmokeErr.CreateTemplate) ∧
        rSecretOnly.cleanup = [CleanupCall.delTemplate t]) ∨
     (∃ template lr,
        createTemplateCheck envInstanceFails "ns" "1" = (some template, none) ∧
        launchTemplateInstanceCheck envInstanceFails "ns" template.name "1" 30 =
          some lr ∧
        rSecretOnly.cleanup = [CleanupCall.delInstance lr.ti,
          CleanupCall.delSecret lr.secret,
          CleanupCall.delTemplate (some template)])) ∧
    (runWithCleanup envInstanceFails ⟨["smoketest-template-1-secret"], [], []⟩
        "ns" false "1" 30).map (fun x => x.1) =
      (runWithCleanup envInstanceFails ⟨[], [], []⟩ "ns" false "1" 30).map
        (fun x => x.1) :=
  ⟨cleanup_once_reverse_order_and_error_independent.1 envInstanceFails "ns" "1"
     30 rSecretOnly (by decide),
   cleanup_once_reverse_order_and_error_independent.2 envInstanceFails
     ⟨["smoketest-template-1-secret"], [], []⟩ ⟨[], [], []⟩ "ns" false "1" 30⟩

/-! ## C9 -/

/-- C9 counterexample: deleting the same secret twice — the second call acting
on an already-deleted resource — makes the helper return an error (the API's
NotFound), so delete on an already-deleted resource is not error-free. -/
theorem delete_already_deleted_returns_error :
    (deleteSecret
        (deleteSecret ⟨["smoketest-template-1-secret"], [], []⟩
          (some ⟨"smoketest-template-1-secret", []⟩)).1
        (some ⟨"smoketest-template-1-secret", []⟩)).2 = true := rfl

/-- C9 (amended): for each of the three delete helpers, a nil reference is a
no-op returning no error; deleting a resource that no longer exists issues
the API call and propagates its NotFound error to the helper's caller
(`Run` discards that error, but the helper itself reports it). -/
theorem delete_nil_noop_and_missing_propagates :
    (∀ st, deleteSecret st none = (st, false)) ∧
    (∀ st, deleteTemplate st none = (st, false)) ∧
    (∀ st, deleteTemplateInstance st none = (st, false)) ∧
    (∀ (st : ClusterState) (s : Secret), st.secrets.contains s.name = false →
       deleteSecret st (some s) = (st, true)) ∧
    (∀ (st : ClusterState) (t : Template), st.templates.contains t.name = false →
       deleteTemplate st (some t) = (st, true)) ∧
    (∀ (st : ClusterState) (i : TemplateInstance),
       st.instances.contains i.name = false →
       deleteTemplateInstance st (some i) = (st, true)) := by
  refine ⟨fun st => rfl, fun st => rfl, fun st => rfl, ?_, ?_, ?_⟩
  · intro st s h
    have h' : ¬ s.name ∈ st.secrets := by simpa using h
    simp [deleteSecret, apiDelete, h']
  · intro st t h
    have h' : ¬ t.name ∈ st.templates := by simpa using h
    simp [deleteTemplate, apiDelete, h']
  · intro st i h
    have h' : ¬ i.name ∈ st.instances := by simpa using h
    simp [deleteTemplateInstance, apiDelete, h']

/-- C9 amended-claim witness: the nil no-ops and the error propagation at
concrete states. -/
theorem delete_nil_noop_and_missing_propagates_witness :
    deleteSecret ⟨[], [], []⟩ none = (⟨[], [], []⟩, false) ∧
    deleteTemplate ⟨[], [], []⟩ none = (⟨[], [], []⟩, false) ∧
    deleteTemplateInstance ⟨[], [], []⟩ none = (⟨[], [], []⟩, false) ∧
    deleteSecret ⟨[], [], []⟩ (some ⟨"s", []⟩) = (⟨[], [], []⟩, true) ∧
    deleteTemplate ⟨[], [], []⟩ (some (testTemplateFor "1")) =
      (⟨[], [], []⟩, true) ∧
    deleteTemplateInstance ⟨[], [], []⟩ (some tiInit) = (⟨[], [], []⟩, true) :=
  ⟨delete_nil_noop_and_missing_propagates.1 ⟨[], [], []⟩,
   delete_nil_noop_and_missing_propagates.2.1 ⟨[], [], []⟩,
   delete_nil_noop_and_missing_propagates.2.2.1 ⟨[], [], []⟩,
   delete_nil_noop_and_missing_propagates.2.2.2.1 ⟨[], [], []⟩ ⟨"s", []⟩ rfl,
   delete_nil_noop_and_missing_propagates.2.2.2.2.1 ⟨[], [], []⟩
     (testTemplateFor "1") rfl,
   delete_nil_noop_and_missing_propagates.2.2.2.2.2 ⟨[], [], []⟩ tiInit rfl⟩

end MonitorTemplates
